import Mathlib

/-!
Verification of the AuraMD frontend (derril-tech/ai-powered-medical-diagnosis-assistant).

Shallow embedding of the TypeScript sources:
* `frontend/src/components/diagnosis/SymptomAnalyzer.tsx` — form schema,
  default values, the `onSubmit` analysis operation and its mock payload,
  the symptom field-array operations, and the result-rendering helpers;
* `frontend/src/lib/utils.ts` — `formatConfidenceScore`, `getConfidenceLevel`,
  `getUrgencyColor`;
* `frontend/src/components/providers/Providers.tsx` — the React Query client
  defaults (retry counts, backoff delay);
* `frontend/src/contexts/AuthContext.tsx` — `logout` and `refreshToken` over
  the localStorage token slots and the user state.

Numbers that the source holds as JS numbers are modelled as `ℚ` (the literals
involved, such as 0.87, are exact decimals) and `ℕ`; JS `Math.round` is
modelled by its specified semantics `⌊x + 1/2⌋`.
-/

namespace AuraMD

/-! ## SymptomAnalyzer.tsx — form data model

The zod schemas `symptomSchema` / `diagnosisSchema`.  Fields the schema marks
`.optional()` are modelled as plain strings (the form's default values
initialise every one of them to the empty string). -/

/-- `z.enum(['mild', 'moderate', 'severe', 'critical'])`. -/
inductive Severity where
  | mild | moderate | severe | critical
  deriving DecidableEq, Repr

/-- `z.enum(['acute', 'subacute', 'chronic'])`. -/
inductive Duration where
  | acute | subacute | chronic
  deriving DecidableEq, Repr

/-- One entry of the `symptoms` field array (shape of `symptomSchema`). -/
structure SymptomForm where
  name : String
  description : String
  severity : Severity
  duration : Duration
  bodyLocation : String
  associatedSymptoms : String
  triggers : String
  relievingFactors : String
  deriving DecidableEq, Repr

/-- The full form value (shape of `diagnosisSchema`, i.e. `DiagnosisFormData`). -/
structure DiagnosisFormData where
  patientId : String
  chiefComplaint : String
  symptoms : List SymptomForm
  medicalHistory : String
  deriving DecidableEq, Repr

/-- `symptomSchema` validation: `name: z.string().min(1)`; every other field is
optional or an enum and cannot fail. -/
def symptomSchema (s : SymptomForm) : Bool :=
  s.name.length ≥ 1

/-- `diagnosisSchema` validation: `patientId` and `chiefComplaint` are
`z.string().min(1)`, `symptoms` is `z.array(symptomSchema).min(1)`,
`medicalHistory` is optional. -/
def diagnosisSchema (d : DiagnosisFormData) : Bool :=
  d.patientId.length ≥ 1 && d.chiefComplaint.length ≥ 1 &&
    d.symptoms.length ≥ 1 && d.symptoms.all symptomSchema

/-- The symptom entry used by `defaultValues` and by `addSymptom`: empty
strings, severity `'moderate'`, duration `'acute'`. -/
def emptySymptom : SymptomForm :=
  { name := ""
    description := ""
    severity := .moderate
    duration := .acute
    bodyLocation := ""
    associatedSymptoms := ""
    triggers := ""
    relievingFactors := "" }

/-- `useForm` `defaultValues`: `patientId: patientId || ''`, one symptom entry.
The optional `patientId` component prop is the argument. -/
def defaultValues (patientId : Option String) : DiagnosisFormData :=
  { patientId := patientId.getD ""
    chiefComplaint := ""
    symptoms := [emptySymptom]
    medicalHistory := "" }

/-- `addSymptom`: `append({...})` on the `symptoms` field array — appends one
fresh default entry at the end. -/
def addSymptom (fields : List SymptomForm) : List SymptomForm :=
  fields ++ [emptySymptom]

/-- The per-symptom remove button in the rendered form is wrapped in
`{fields.length > 1 && (<button ... remove(index) ...>)}`: it is rendered
exactly when the field array has more than one entry. -/
def removeButtonRendered (fields : List SymptomForm) : Bool :=
  fields.length > 1

/-! ## SymptomAnalyzer.tsx — analysis result model and `onSubmit` -/

/-- One entry of `differentialDiagnoses` in the result payload. -/
structure DifferentialDiagnosis where
  conditionName : String
  confidenceScore : ℚ
  aiReasoning : String
  differentialRank : ℕ
  deriving DecidableEq, Repr

/-- The analysis result payload (`mockResult`'s shape). -/
structure AnalysisResult where
  sessionId : String
  differentialDiagnoses : List DifferentialDiagnosis
  recommendedTests : List String
  urgencyLevel : String
  clinicalReasoning : String
  redFlags : List String
  deriving DecidableEq, Repr

/-- The hard-coded `mockResult` object built in the try block of `onSubmit`. -/
def mockResult : AnalysisResult :=
  { sessionId := "session-123"
    differentialDiagnoses :=
      [ { conditionName := "Acute Myocardial Infarction"
          confidenceScore := 87/100
          aiReasoning := "Chest pain with radiation, elevated cardiac markers, and ECG changes suggest acute MI."
          differentialRank := 1 }
      , { conditionName := "Unstable Angina"
          confidenceScore := 73/100
          aiReasoning := "Chest pain pattern consistent with unstable angina, but biomarkers needed."
          differentialRank := 2 }
      , { conditionName := "Pulmonary Embolism"
          confidenceScore := 65/100
          aiReasoning := "Shortness of breath and chest pain could indicate PE, D-dimer recommended."
          differentialRank := 3 } ]
    recommendedTests :=
      [ "ECG (12-lead)"
      , "Cardiac enzymes (Troponin I/T)"
      , "Complete Blood Count"
      , "D-dimer"
      , "Chest X-ray" ]
    urgencyLevel := "emergency"
    clinicalReasoning := "Patient presents with acute chest pain and dyspnea. Given the symptom constellation and severity, immediate cardiac evaluation is warranted."
    redFlags :=
      [ "Severe chest pain"
      , "Shortness of breath"
      , "Potential cardiac event" ] }

/-- The component state touched by `onSubmit`
(`isAnalyzing`, `analysisResult`). -/
structure AnalyzerState where
  isAnalyzing : Bool
  analysisResult : Option AnalysisResult
  deriving DecidableEq, Repr

/-- `useState` initial values: `useState(false)`, `useState(null)`. -/
def initialAnalyzerState : AnalyzerState :=
  { isAnalyzing := false, analysisResult := none }

/-- The ambient environment of external AI providers: the responses provider A
and provider B would give if their HTTP APIs were called.  `onSubmit` is
modelled over it so that dependence (or not) of its output on the providers'
responses is statable; the source body never consults either response. -/
structure ProviderEnv where
  providerAResponse : String
  providerBResponse : String

/-- One outbound HTTP request record (none are issued by `onSubmit`). -/
structure HttpCall where
  url : String
  body : String
  deriving DecidableEq, Repr

/-- Outcome of the single awaited step inside the try block of `onSubmit`
(`await new Promise(resolve => setTimeout(resolve, 3000))`): the promise either
resolves or rejects.  In the source the timer always resolves; the rejecting
case is the path that lands in the catch branch. -/
inductive AwaitOutcome where
  | resolves | rejects
  deriving DecidableEq, Repr

/-- Everything observable from one run of `onSubmit`: the component state after
the finally block, the outbound HTTP requests issued, the `console.error`
messages, and the payload passed to the `onAnalysisComplete` callback. -/
structure SubmitOutcome where
  state : AnalyzerState
  httpCalls : List HttpCall
  consoleErrors : List String
  completedPayload : Option AnalysisResult
  deriving Repr

/-- `onSubmit(data)`: sets `isAnalyzing` to true, awaits the 3-second timer
(no HTTP request is made and neither provider response is read), then on the
resolving path builds `mockResult`, stores it with `setAnalysisResult`, and
hands it to `onAnalysisComplete?.`; on the rejecting path the catch branch
logs `console.error('Analysis failed:', error)` and stores nothing.  The
finally block resets `isAnalyzing` in both cases. -/
def onSubmit (env : ProviderEnv) (outcome : AwaitOutcome) (data : DiagnosisFormData)
    (s : AnalyzerState) : SubmitOutcome :=
  match outcome with
  | .resolves =>
      { state := { s with isAnalyzing := false, analysisResult := some mockResult }
        httpCalls := []
        consoleErrors := []
        completedPayload := some mockResult }
  | .rejects =>
      { state := { s with isAnalyzing := false }
        httpCalls := []
        consoleErrors := ["Analysis failed:"]
        completedPayload := none }

/-! ## Result rendering and lib/utils.ts helpers -/

/-- JS `Math.round`: round half towards positive infinity, i.e. `⌊x + 1/2⌋`. -/
def jsRound (x : ℚ) : ℤ :=
  ⌊x + 1/2⌋

/-- `formatConfidenceScore` (utils.ts):
`` `${Math.round(score * 100)}%` ``.  The result view in SymptomAnalyzer.tsx
renders the same expression `{Math.round(diagnosis.confidenceScore * 100)}%`
for each diagnosis, so it is also the percentage the component displays. -/
def formatConfidenceScore (score : ℚ) : String :=
  toString (jsRound (score * 100)) ++ "%"

/-- `getConfidenceLevel` (utils.ts): thresholds 0.8 and 0.6. -/
def getConfidenceLevel (score : ℚ) : String :=
  if score ≥ 8/10 then "high"
  else if score ≥ 6/10 then "moderate"
  else "low"

/-- `getConfidenceColor` (SymptomAnalyzer.tsx): same thresholds, CSS classes. -/
def getConfidenceColor (score : ℚ) : String :=
  if score ≥ 8/10 then "diagnosis-confidence-high"
  else if score ≥ 6/10 then "diagnosis-confidence-moderate"
  else "diagnosis-confidence-low"

/-- `getUrgencyColor` (SymptomAnalyzer.tsx): object lookup on the four urgency
levels with `|| 'urgency-routine'` as the fallthrough default. -/
def getUrgencyColor (level : String) : String :=
  if level = "emergency" then "urgency-emergency"
  else if level = "urgent" then "urgency-urgent"
  else if level = "moderate" then "urgency-moderate"
  else if level = "routine" then "urgency-routine"
  else "urgency-routine"

/-- The four-level urgency scale named by the urgency colour maps. -/
def urgencyScale : List String :=
  ["routine", "moderate", "urgent", "emergency"]

/-! ## Providers.tsx — React Query client defaults -/

/-- `defaultOptions.queries` of the `QueryClient` constructed in
Providers.tsx.  `retry` is the number of times a failed query is retried
before the error is surfaced; `retryDelay` maps the attempt index to the
backoff delay in milliseconds. -/
structure QueriesConfig where
  retry : ℕ
  retryDelay : ℕ → ℕ
  staleTime : ℕ
  cacheTime : ℕ
  refetchOnWindowFocus : Bool

/-- `defaultOptions.mutations` of the `QueryClient`. -/
structure MutationsConfig where
  retry : ℕ

/-- The `defaultOptions` passed to `new QueryClient({...})`. -/
structure QueryClientConfig where
  queries : QueriesConfig
  mutations : MutationsConfig

/-- The module-level `queryClient` of Providers.tsx:
queries retry 3 times with delay `Math.min(1000 * 2 ** attemptIndex, 30000)`,
mutations retry once. -/
def queryClient : QueryClientConfig :=
  { queries :=
      { retry := 3
        retryDelay := fun attemptIndex => min (1000 * 2 ^ attemptIndex) 30000
        staleTime := 5 * 60 * 1000
        cacheTime := 10 * 60 * 1000
        refetchOnWindowFocus := false }
    mutations := { retry := 1 } }

/-! ## AuthContext.tsx — token storage, `logout`, `refreshToken`

The state carries the two localStorage slots (`access_token`,
`refresh_token`) and the `user` React state.  The toast notifications and
`router.push` navigation performed by `logout` are UI side effects outside
this state and are elided; `authApi.refreshToken` is an external HTTP call and
is a parameter. -/

/-- `TokenResponse` (types/auth.ts). -/
structure TokenResponse where
  access_token : String
  refresh_token : String
  token_type : String
  deriving DecidableEq, Repr

/-- `User` (types/auth.ts); the fields the auth context stores. -/
structure User where
  id : String
  email : String
  full_name : String
  role : String
  is_active : Bool
  is_verified : Bool
  deriving DecidableEq, Repr

/-- The auth-relevant mutable state: the two localStorage token slots and the
`user` state (`none` models an absent slot / `null`). -/
structure AuthState where
  access_token : Option String
  refresh_token : Option String
  user : Option User
  deriving DecidableEq, Repr

/-- Failure of the external `authApi.refreshToken` HTTP call. -/
structure ApiError where
  detail : String
  deriving DecidableEq, Repr

/-- The error `refreshToken` rethrows: either its own
`new Error('No refresh token')` or the API call's failure. -/
inductive RefreshError where
  | noRefreshToken
  | apiFailure (e : ApiError)
  deriving DecidableEq, Repr

/-- `logout`: removes both tokens from localStorage and sets the user to null
(the toast and navigation are elided). -/
def logout (_s : AuthState) : AuthState :=
  { access_token := none, refresh_token := none, user := none }

/-- `refreshToken`: reads the stored refresh token, throwing if it is absent;
otherwise awaits `authApi.refreshToken` (the `api` parameter).  On success it
stores the new access token and returns it; on any failure the catch branch
runs `logout()` and rethrows. -/
def refreshToken (api : String → Except ApiError TokenResponse)
    (s : AuthState) : Except RefreshError String × AuthState :=
  match s.refresh_token with
  | none => (.error .noRefreshToken, logout s)
  | some rt =>
      match api rt with
      | .ok response => (.ok response.access_token, { s with access_token := some response.access_token })
      | .error e => (.error (.apiFailure e), logout s)

/-! ## Concrete inputs and claim-side predicates -/

/-- A concrete valid form submission (passes `diagnosisSchema`). -/
def sampleForm : DiagnosisFormData :=
  { patientId := "P-12345"
    chiefComplaint := "chest pain"
    symptoms := [{ emptySymptom with name := "chest pain", severity := .severe }]
    medicalHistory := "" }

/-- A concrete provider environment. -/
def sampleEnv : ProviderEnv :=
  { providerAResponse := "provider A JSON", providerBResponse := "provider B JSON" }

/-- A second, different provider environment. -/
def otherEnv : ProviderEnv :=
  { providerAResponse := "other provider A JSON", providerBResponse := "other provider B JSON" }

/-- A diagnosis list is sorted in descending order of confidence score. -/
def sortedByScoreDesc (l : List DifferentialDiagnosis) : Prop :=
  l.Pairwise (fun a b => b.confidenceScore ≤ a.confidenceScore)

/-- Each entry's `differentialRank` equals its 1-based position in the list. -/
def ranksMatchPositions (l : List DifferentialDiagnosis) : Prop :=
  ∀ i (h : i < l.length), (l.get ⟨i, h⟩).differentialRank = i + 1

/-! ## Claims -/

/-- C1: the claim says the analyze operation makes two outbound calls to the
provider APIs and merges their responses into the returned list.  At the
concrete failing input the code issues no outbound HTTP call at all, and the
payload it hands out is the constant `mockResult`, identical under two
different provider environments — it does not depend on any provider
response. -/
theorem C1_analyze_issues_no_provider_calls :
    (onSubmit sampleEnv .resolves sampleForm initialAnalyzerState).httpCalls = []
    ∧ (onSubmit sampleEnv .resolves sampleForm initialAnalyzerState).completedPayload
        = (onSubmit otherEnv .resolves sampleForm initialAnalyzerState).completedPayload
    ∧ (onSubmit sampleEnv .resolves sampleForm initialAnalyzerState).completedPayload
        = some mockResult :=
  ⟨rfl, rfl, rfl⟩

/-- C2: every payload the analysis operation hands out has its differential
diagnosis list sorted in descending order of confidence score, and each
entry's `differentialRank` is its 1-based position in the list. -/
theorem C2_result_sorted_and_ranked (env : ProviderEnv) (outcome : AwaitOutcome)
    (data : DiagnosisFormData) (s : AnalyzerState) (r : AnalysisResult)
    (h : (onSubmit env outcome data s).completedPayload = some r) :
    sortedByScoreDesc r.differentialDiagnoses ∧ ranksMatchPositions r.differentialDiagnoses := by
  cases outcome <;> simp [onSubmit] at h
  subst h
  constructor
  · simp [sortedByScoreDesc, mockResult, List.pairwise_cons]
    norm_num
  · unfold ranksMatchPositions
    decide

/-- Witness for C2 at the concrete input: the payload is `mockResult` and it
is sorted and correctly ranked. -/
theorem C2_result_sorted_and_ranked_witness :
    (onSubmit sampleEnv .resolves sampleForm initialAnalyzerState).completedPayload = some mockResult
    ∧ (sortedByScoreDesc mockResult.differentialDiagnoses
        ∧ ranksMatchPositions mockResult.differentialDiagnoses) :=
  ⟨rfl, C2_result_sorted_and_ranked sampleEnv .resolves sampleForm initialAnalyzerState
    mockResult rfl⟩

/-- C3: the claim says a failing analysis step yields a static fallback
payload.  At the concrete failing input (the awaited analysis step rejects)
the catch branch hands out no payload at all, stores no result, and only logs
`console.error('Analysis failed:', ...)`. -/
theorem C3_failure_produces_no_payload :
    (onSubmit sampleEnv .rejects sampleForm initialAnalyzerState).completedPayload = none
    ∧ (onSubmit sampleEnv .rejects sampleForm initialAnalyzerState).state.analysisResult = none
    ∧ (onSubmit sampleEnv .rejects sampleForm initialAnalyzerState).consoleErrors
        = ["Analysis failed:"] :=
  ⟨rfl, rfl, rfl⟩

/-- C4: the successful branch of `onSubmit` is a constant function of the
submitted form (and of the provider environment and prior component state):
any two runs hand out the same payload, namely `mockResult` with sessionId
"session-123", confidence scores 0.87/0.73/0.65, urgency "emergency", and the
fixed recommended tests and red flags. -/
theorem C4_onSubmit_constant (env e' : ProviderEnv) (d d' : DiagnosisFormData)
    (s s' : AnalyzerState) :
    (onSubmit env .resolves d s).completedPayload
        = (onSubmit e' .resolves d' s').completedPayload
    ∧ (onSubmit env .resolves d s).state.analysisResult = some mockResult
    ∧ mockResult.sessionId = "session-123"
    ∧ mockResult.differentialDiagnoses.map (fun dd => dd.confidenceScore)
        = [87/100, 73/100, 65/100]
    ∧ mockResult.recommendedTests
        = ["ECG (12-lead)", "Cardiac enzymes (Troponin I/T)", "Complete Blood Count",
           "D-dimer", "Chest X-ray"]
    ∧ mockResult.urgencyLevel = "emergency"
    ∧ mockResult.redFlags
        = ["Severe chest pain", "Shortness of breath", "Potential cardiac event"] :=
  ⟨rfl, rfl, rfl, rfl, rfl, rfl, rfl⟩

/-- C5: in every payload the analysis operation hands out, each diagnosis's
confidence score lies in [0,1], and the percentage the result view displays
for it is `Math.round(score * 100)` — concretely 87%, 73%, 65%. -/
theorem C5_scores_in_unit_interval (env : ProviderEnv) (outcome : AwaitOutcome)
    (data : DiagnosisFormData) (s : AnalyzerState) (r : AnalysisResult)
    (h : (onSubmit env outcome data s).completedPayload = some r) :
    (∀ d ∈ r.differentialDiagnoses, 0 ≤ d.confidenceScore ∧ d.confidenceScore ≤ 1)
    ∧ r.differentialDiagnoses.map (fun d => formatConfidenceScore d.confidenceScore)
        = ["87%", "73%", "65%"]
    ∧ r.differentialDiagnoses.map (fun d => jsRound (d.confidenceScore * 100))
        = [87, 73, 65] := by
  cases outcome <;> simp [onSubmit] at h
  subst h
  refine ⟨?_, ?_, ?_⟩
  · simp [mockResult]
    norm_num
  · simp [formatConfidenceScore, mockResult, jsRound]
    norm_num
    exact ⟨rfl, rfl, rfl⟩
  · simp [mockResult, jsRound]
    norm_num

/-- Witness for C5 at the concrete input. -/
theorem C5_scores_in_unit_interval_witness :
    (onSubmit sampleEnv .resolves sampleForm initialAnalyzerState).completedPayload = some mockResult
    ∧ ((∀ d ∈ mockResult.differentialDiagnoses,
          0 ≤ d.confidenceScore ∧ d.confidenceScore ≤ 1)
       ∧ mockResult.differentialDiagnoses.map (fun d => formatConfidenceScore d.confidenceScore)
           = ["87%", "73%", "65%"]
       ∧ mockResult.differentialDiagnoses.map (fun d => jsRound (d.confidenceScore * 100))
           = [87, 73, 65]) :=
  ⟨rfl, C5_scores_in_unit_interval sampleEnv .resolves sampleForm initialAnalyzerState
    mockResult rfl⟩

/-- C6 counterexample: the claim says no retry or backoff is performed
anywhere, i.e. the retry budgets are zero.  The React Query client of
Providers.tsx configures queries to retry 3 times (with backoff delays 1000ms
then 2000ms for the first two attempts) and mutations to retry once. -/
theorem C6_no_retry_counterexample :
    queryClient.queries.retry = 3
    ∧ queryClient.mutations.retry = 1
    ∧ queryClient.queries.retryDelay 0 = 1000
    ∧ queryClient.queries.retryDelay 1 = 2000
    ∧ ¬(queryClient.queries.retry = 0 ∧ queryClient.mutations.retry = 0) := by
  refine ⟨rfl, rfl, rfl, rfl, ?_⟩
  intro hc
  exact absurd hc.1 (by decide)

/-- C6 amended: the React Query client retries failed queries up to 3 times
with exponential backoff delay `min(1000 * 2 ^ attemptIndex, 30000)` ms
(starting at 1000ms, capped at 30000ms from the fifth retry on) and retries
failed mutations once; the diagnosis-analysis operation itself performs no
retry and no call — its failure path only logs. -/
theorem C6_retry_config :
    queryClient.queries.retry = 3
    ∧ queryClient.mutations.retry = 1
    ∧ queryClient.queries.retryDelay 0 = 1000
    ∧ (∀ n, queryClient.queries.retryDelay n ≤ 30000)
    ∧ (∀ n, queryClient.queries.retryDelay (n + 5) = 30000)
    ∧ (onSubmit sampleEnv .rejects sampleForm initialAnalyzerState).httpCalls = [] := by
  refine ⟨rfl, rfl, rfl, fun n => ?_, fun n => ?_, rfl⟩
  · exact Nat.min_le_right _ _
  · have h32 : (32 : ℕ) ≤ 2 ^ (n + 5) := by
      calc (32 : ℕ) = 2 ^ 5 := by norm_num
        _ ≤ 2 ^ (n + 5) := Nat.pow_le_pow_right (by norm_num) (by omega)
    have h : (30000 : ℕ) ≤ 1000 * 2 ^ (n + 5) := by
      calc (30000 : ℕ) ≤ 1000 * 32 := by norm_num
        _ ≤ 1000 * 2 ^ (n + 5) := Nat.mul_le_mul_left 1000 h32
    simpa [queryClient] using Nat.min_eq_right h

/-- C7: every payload the analysis operation hands out has a non-empty
differential diagnosis list and an urgencyLevel drawn from the four-level
urgency scale (routine, moderate, urgent, emergency); its urgency maps to a
matching CSS class, not the fallthrough default. -/
theorem C7_payload_nonempty_and_urgency_in_scale (env : ProviderEnv)
    (outcome : AwaitOutcome) (data : DiagnosisFormData) (s : AnalyzerState)
    (r : AnalysisResult)
    (h : (onSubmit env outcome data s).completedPayload = some r) :
    r.differentialDiagnoses ≠ []
    ∧ r.urgencyLevel ∈ urgencyScale
    ∧ getUrgencyColor r.urgencyLevel = "urgency-emergency" := by
  cases outcome <;> simp [onSubmit] at h
  subst h
  refine ⟨by simp [mockResult], by simp [mockResult, urgencyScale], rfl⟩

/-- Witness for C7 at the concrete input. -/
theorem C7_payload_nonempty_and_urgency_in_scale_witness :
    (onSubmit sampleEnv .resolves sampleForm initialAnalyzerState).completedPayload = some mockResult
    ∧ (mockResult.differentialDiagnoses ≠ []
       ∧ mockResult.urgencyLevel ∈ urgencyScale
       ∧ getUrgencyColor mockResult.urgencyLevel = "urgency-emergency") :=
  ⟨rfl, C7_payload_nonempty_and_urgency_in_scale sampleEnv .resolves sampleForm
    initialAnalyzerState mockResult rfl⟩

/-- C8: the symptoms field array is never empty — the default form state has
exactly one (unremovable) symptom entry, `addSymptom` strictly grows the array
while keeping every existing entry, the remove button is rendered exactly when
the array has more than one entry, and any form accepted by `diagnosisSchema`
has a non-empty symptoms array, non-empty patientId and chiefComplaint, and no
symptom with an empty name. -/
theorem C8_symptoms_array_never_empty (p : Option String) (l : List SymptomForm)
    (d : DiagnosisFormData) (hd : diagnosisSchema d = true) :
    (defaultValues p).symptoms.length = 1
    ∧ removeButtonRendered (defaultValues p).symptoms = false
    ∧ l.length < (addSymptom l).length
    ∧ (addSymptom l).take l.length = l
    ∧ (removeButtonRendered l = true ↔ 1 < l.length)
    ∧ d.symptoms ≠ []
    ∧ d.patientId ≠ ""
    ∧ d.chiefComplaint ≠ ""
    ∧ ∀ sym ∈ d.symptoms, sym.name ≠ "" := by
  simp only [diagnosisSchema, Bool.and_eq_true, decide_eq_true_eq,
    List.all_eq_true] at hd
  obtain ⟨⟨⟨hpid, hcc⟩, hlen⟩, hall⟩ := hd
  refine ⟨rfl, rfl, ?_, ?_, ?_, ?_, ?_, ?_, ?_⟩
  · simp [addSymptom]
  · simp [addSymptom]
  · simp [removeButtonRendered]
  · exact List.ne_nil_of_length_pos (by omega)
  · intro he
    rw [he] at hpid
    simp at hpid
  · intro he
    rw [he] at hcc
    simp at hcc
  · intro sym hmem he
    have := hall sym hmem
    simp only [symptomSchema, decide_eq_true_eq] at this
    rw [he] at this
    simp at this

/-- Witness for C8 at concrete inputs: the sample form passes the schema and
the guarantees hold for it, for the default state, and for a two-entry field
array. -/
theorem C8_symptoms_array_never_empty_witness :
    diagnosisSchema sampleForm = true
    ∧ ((defaultValues (some "P-12345")).symptoms.length = 1
       ∧ removeButtonRendered (defaultValues (some "P-12345")).symptoms = false
       ∧ [emptySymptom, emptySymptom].length < (addSymptom [emptySymptom, emptySymptom]).length
       ∧ (addSymptom [emptySymptom, emptySymptom]).take [emptySymptom, emptySymptom].length
           = [emptySymptom, emptySymptom]
       ∧ (removeButtonRendered [emptySymptom, emptySymptom] = true
           ↔ 1 < ([emptySymptom, emptySymptom] : List SymptomForm).length)
       ∧ sampleForm.symptoms ≠ []
       ∧ sampleForm.patientId ≠ ""
       ∧ sampleForm.chiefComplaint ≠ ""
       ∧ ∀ sym ∈ sampleForm.symptoms, sym.name ≠ "") :=
  ⟨by decide, C8_symptoms_array_never_empty (some "P-12345")
    [emptySymptom, emptySymptom] sampleForm (by decide)⟩

/-- C9: `refreshToken` is atomic with respect to the stored credentials:
either it succeeds, returning and storing the new access token while leaving
the refresh token and the user unchanged, or it fails (missing refresh token
or API failure), in which case both tokens are removed and the user is set to
null before the error is rethrown — in particular no failure leaves an access
token behind. -/
theorem C9_refreshToken_atomic (api : String → Except ApiError TokenResponse)
    (s : AuthState) :
    (∃ t, (refreshToken api s).1 = .ok t
        ∧ (refreshToken api s).2.access_token = some t
        ∧ (refreshToken api s).2.refresh_token = s.refresh_token
        ∧ (refreshToken api s).2.user = s.user)
    ∨ ((∃ e, (refreshToken api s).1 = .error e)
        ∧ (refreshToken api s).2.access_token = none
        ∧ (refreshToken api s).2.refresh_token = none
        ∧ (refreshToken api s).2.user = none) := by
  cases hs : s.refresh_token with
  | none =>
      right
      exact ⟨⟨.noRefreshToken, by simp [refreshToken, hs]⟩,
        by simp [refreshToken, hs, logout],
        by simp [refreshToken, hs, logout],
        by simp [refreshToken, hs, logout]⟩
  | some rt =>
      cases hapi : api rt with
      | ok resp =>
          left
          exact ⟨resp.access_token, by simp [refreshToken, hs, hapi],
            by simp [refreshToken, hs, hapi],
            by simp [refreshToken, hs, hapi],
            by simp [refreshToken, hs, hapi]⟩
      | error e =>
          right
          exact ⟨⟨.apiFailure e, by simp [refreshToken, hs, hapi]⟩,
            by simp [refreshToken, hs, hapi, logout],
            by simp [refreshToken, hs, hapi, logout],
            by simp [refreshToken, hs, hapi, logout]⟩

end AuraMD
